import Mathlib

/-!
Verification of the `volo_health` Reddit therapy Q&A scraper (`src/main.py`).

The Python source is shallowly embedded: strings are Lean `String`
(lists of unicode scalar `Char`s, matching Python's character-based
`len` and indexing), the regular-expression substitutions of
`clean_text` are implemented as explicit left-to-right scanners with
the same match semantics as `re.sub`, and the MongoDB collection is an
explicit `List QARecord` threaded through the driver.  Character
classes (`\w`, `\s`, `str.lower`) are modelled at ASCII resolution;
epoch timestamps are modelled at whole-second resolution.
-/

namespace Volo

/-- Python `\s` character class (ASCII range), also used by `str.split()`
and `str.strip()`. -/
def pyIsSpace (c : Char) : Bool :=
  c = ' ' || c = '\t' || c = '\n' || c = '\r' || c = '\x0b' || c = '\x0c'

/-- Python `\w` character class (ASCII range): alphanumerics and underscore. -/
def pyIsWord (c : Char) : Bool :=
  c.isAlphanum || c = '_'

/-- Python `str.lower` (ASCII range). -/
def pyLower (s : String) : String :=
  String.mk (s.data.map Char.toLower)

/-- Python substring membership `needle in haystack`, on character lists. -/
def substrB (needle : List Char) : List Char → Bool
  | [] => needle.isEmpty
  | c :: cs => needle.isPrefixOf (c :: cs) || substrB needle cs

/-- Python substring membership `needle in haystack`. -/
def pyIn (needle haystack : String) : Bool :=
  substrB needle.data haystack.data

/-- Number of words of Python `text.split()` (split on whitespace runs,
no empty words): scans with a flag recording whether the previous
character was part of a word. -/
def pyWordCountAux : Bool → List Char → Nat
  | _, [] => 0
  | inWord, c :: cs =>
    if pyIsSpace c then pyWordCountAux false cs
    else (if inWord then 0 else 1) + pyWordCountAux true cs

/-- `len(text.split())` in Python. -/
def word_count (s : String) : Nat :=
  pyWordCountAux false s.data

/-! ## The regex passes of `clean_text` (src/main.py lines 66-79) -/

/-- Greedy `\S+`: the remainder of the list after dropping the maximal
leading run of non-whitespace characters. -/
def dropNonSpace : List Char → List Char
  | [] => []
  | c :: cs => if pyIsSpace c then c :: cs else dropNonSpace cs

/-- Attempt to match `://\S+` (the tail of the URL pattern) at the head of
the list; on success return the remainder after the greedy match. -/
def schemeRest : List Char → Option (List Char)
  | ':' :: '/' :: '/' :: c :: cs => if pyIsSpace c then none else some (dropNonSpace cs)
  | _ => none

/-- Attempt to match `http[s]?://\S+` at the head of the list, with the
backtracking semantics of Python `re` (the optional `s` is tried first);
on success return the remainder after the match. -/
def matchUrlAt : List Char → Option (List Char)
  | 'h' :: 't' :: 't' :: 'p' :: 's' :: rest => schemeRest rest
  | 'h' :: 't' :: 't' :: 'p' :: rest => schemeRest rest
  | _ => none

/-- `re.sub(r'http[s]?://\S+', '', text)`: left-to-right scan replacing
each non-overlapping match with the empty string.  The fuel argument is
the length of the scanned list; every step consumes at least one
character, so the fuel never runs out. -/
def removeUrlsAux : Nat → List Char → List Char
  | _, [] => []
  | 0, l => l
  | fuel + 1, c :: cs =>
    match matchUrlAt (c :: cs) with
    | some rest => removeUrlsAux fuel rest
    | none => c :: removeUrlsAux fuel cs

/-- `re.sub(r'http[s]?://\S+', '', text)`. -/
def removeUrls (l : List Char) : List Char :=
  removeUrlsAux l.length l

/-- First half of the lazy Reddit-link pattern: scan for the first `](`
reachable without crossing a newline (`.` does not match `\n`); return
the remainder after it. -/
def findLinkMid : List Char → Option (List Char)
  | ']' :: '(' :: cs => some cs
  | '\n' :: _ => none
  | _ :: cs => findLinkMid cs
  | [] => none

/-- Second half of the lazy Reddit-link pattern: scan for the first `)`
reachable without crossing a newline; return the remainder after it. -/
def findLinkEnd : List Char → Option (List Char)
  | ')' :: cs => some cs
  | '\n' :: _ => none
  | _ :: cs => findLinkEnd cs
  | [] => none

/-- `re.sub(r'\[.*?\]\(.*?\)', '', text)`: left-to-right scan; at each
`[` the lazy pattern matches up to the first `](` and then the first `)`
(if the `)` search fails, no later `](` split can succeed either, since
the search regions up to the first newline coincide). -/
def removeLinksAux : Nat → List Char → List Char
  | _, [] => []
  | 0, l => l
  | fuel + 1, c :: cs =>
    if c = '[' then
      match (findLinkMid cs).bind findLinkEnd with
      | some rest => removeLinksAux fuel rest
      | none => c :: removeLinksAux fuel cs
    else c :: removeLinksAux fuel cs

/-- `re.sub(r'\[.*?\]\(.*?\)', '', text)`. -/
def removeLinks (l : List Char) : List Char :=
  removeLinksAux l.length l

/-- `re.sub(r'\s+', ' ', text)`: each maximal whitespace run becomes a
single space.  The flag records whether the scanner is inside a run. -/
def collapseWsAux : Bool → List Char → List Char
  | _, [] => []
  | inRun, c :: cs =>
    if pyIsSpace c then
      if inRun then collapseWsAux true cs else ' ' :: collapseWsAux true cs
    else c :: collapseWsAux false cs

/-- `re.sub(r'\s+', ' ', text)`. -/
def collapseWs (l : List Char) : List Char :=
  collapseWsAux false l

/-- The character whitelist of `re.sub(r'[^\w\s.,!?-]', '', text)`. -/
def keepChar (c : Char) : Bool :=
  pyIsWord c || pyIsSpace c || c = '.' || c = ',' || c = '!' || c = '?' || c = '-'

/-- Python `str.strip()`: drop leading and trailing whitespace. -/
def pyStrip (l : List Char) : List Char :=
  ((l.dropWhile pyIsSpace).reverse.dropWhile pyIsSpace).reverse

/-- `TherapyDataScraper.clean_text` (src/main.py lines 66-79): URL
removal, Reddit-link removal, whitespace collapsing, special-character
removal, then strip; empty (falsy) input short-circuits to `""`. -/
def clean_text (s : String) : String :=
  if s = "" then ""
  else String.mk (pyStrip (List.filter keepChar (collapseWs (removeLinks (removeUrls s.data)))))

/-- The residual of a second `clean_text` pass: collapse whitespace runs
and strip again. -/
def collapse_strip (s : String) : String :=
  String.mk (pyStrip (collapseWs s.data))

/-- `True` iff the string has a substring matching `http[s]?://\S+`:
some suffix admits a match of the URL pattern at its head. -/
def urlScan : List Char → Bool
  | [] => false
  | c :: cs => (matchUrlAt (c :: cs)).isSome || urlScan cs

/-- The string contains a match of the URL pattern `http[s]?://\S+`. -/
def hasUrlMatch (s : String) : Bool :=
  urlScan s.data

/-! ## Validator and classifiers (src/main.py lines 81-176) -/

/-- The question indicators of `is_valid_qa` (src/main.py line 94). -/
def question_indicators : List String :=
  ["?", "how", "what", "why", "can", "should", "help", "advice"]

/-- `TherapyDataScraper.is_valid_qa` (src/main.py lines 81-97), with the
source's early-return structure. -/
def is_valid_qa (title selftext comment_body : String) : Bool :=
  if title.length < 20 ∨ comment_body.length < 50 then false
  else if pyIn "[removed]" selftext = true ∨ pyIn "[deleted]" selftext = true then false
  else if pyIn "[removed]" comment_body = true ∨ pyIn "[deleted]" comment_body = true then false
  else question_indicators.any fun ind => pyIn ind (pyLower title)

/-- The validator as the spec words it (section 4.2): a flat conjunction
of the length guard, the removal-marker guard, and the
question-indicator guard. -/
def validator_spec (title selftext comment_body : String) : Bool :=
  decide (20 ≤ title.length) && decide (50 ≤ comment_body.length)
    && !(pyIn "[removed]" selftext) && !(pyIn "[deleted]" selftext)
    && !(pyIn "[removed]" comment_body) && !(pyIn "[deleted]" comment_body)
    && question_indicators.any fun ind => pyIn ind (pyLower title)

/-- The category keyword table of `categorize_content` (src/main.py
lines 103-109). -/
def category_keywords : List (String × List String) :=
  [("anxiety", ["anxiety", "panic", "stress", "worry", "anxious"]),
   ("depression", ["depression", "depressed", "mood", "sad", "hopeless"]),
   ("trauma", ["trauma", "ptsd", "abuse", "traumatic"]),
   ("relationships", ["relationship", "marriage", "partner", "family", "couple"]),
   ("therapy_types", ["cbt", "dbt", "emdr", "psychodynamic", "behavioral"])]

/-- `TherapyDataScraper.categorize_content` (src/main.py lines 99-116). -/
def categorize_content (text : String) : List String :=
  (category_keywords.filter fun ck => ck.2.any fun kw => pyIn kw (pyLower text)).map Prod.fst

/-- `TherapyDataScraper.get_therapeutic_modality` (src/main.py
lines 151-159). -/
def get_therapeutic_modality (question_text answer_text : String) : String :=
  if pyIn "cbt" (pyLower question_text) || pyIn "cbt" (pyLower answer_text) then "CBT"
  else if pyIn "dbt" (pyLower question_text) || pyIn "dbt" (pyLower answer_text) then "DBT"
  else "Unknown"

/-- `TherapyDataScraper.assess_complexity` (src/main.py lines 161-168). -/
def assess_complexity (question_text answer_text : String) : String :=
  if word_count question_text < 30 ∧ word_count answer_text < 100 then "Low"
  else if word_count question_text < 50 ∧ word_count answer_text < 200 then "Medium"
  else "High"

/-- `TherapyDataScraper.get_modality_specific_tag` (src/main.py
lines 170-176). -/
def get_modality_specific_tag (question_text answer_text : String) : String :=
  if pyIn "parts" (pyLower question_text) || pyIn "parts" (pyLower answer_text) then "Parts Work"
  else "None"

/-! ## The persisted record (spec section 3, src/main.py lines 128-149) -/

/-- The `metadata` sub-object of a Q&A record. -/
structure QAMeta where
  topic_or_issue : String
  complexity_level : String
  modality_specific_tag : String
deriving DecidableEq, Repr

/-- The `more` provenance sub-object of a Q&A record. -/
structure QAMore where
  subreddit : String
  source : String
  created_utc : String
  url : String
deriving DecidableEq, Repr

/-- The record shape returned by `extract_qa_pair` and stored in the
`qa_pairs` collection. -/
structure QARecord where
  question_id : String
  therapeutic_modality : String
  question_text : String
  answer_text : String
  metadata : QAMeta
  more : QAMore
deriving DecidableEq, Repr

/-- A Reddit comment, as the fields of the `praw` comment object used by
the source.  `has_body` models `hasattr(comment, 'body')`;
`insert_fails` models the environment side condition that
`insert_one` raises for this record (caught at src/main.py line 216). -/
structure RComment where
  id : String
  has_body : Bool
  body : String
  score : Int
  insert_fails : Bool
deriving DecidableEq, Repr

/-- A Reddit submission, as the fields of the `praw` post object used by
the source.  `comments` is the comment list after `comment_sort = 'top'`
and `replace_more(limit=0)`; `created_utc` is modelled at whole-second
resolution. -/
structure RPost where
  id : String
  title : String
  selftext : String
  permalink : String
  created_utc : Nat
  subreddit : String
  stickied : Bool
  num_comments : Nat
  score : Int
  comments : List RComment
deriving DecidableEq, Repr

/-- Zero-pad a numeral to two digits. -/
def pad2 (n : Nat) : String :=
  if n < 10 then "0" ++ toString n else toString n

/-- Zero-pad a numeral to four digits. -/
def pad4 (n : Nat) : String :=
  if n < 10 then "000" ++ toString n
  else if n < 100 then "00" ++ toString n
  else if n < 1000 then "0" ++ toString n
  else toString n

/-- Proleptic Gregorian calendar date for a day count since 1970-01-01
(the standard era-based civil-from-days algorithm, restricted to
non-negative day counts). -/
def civilFromDays (z : Nat) : Nat × Nat × Nat :=
  let z' := z + 719468
  let era := z' / 146097
  let doe := z' % 146097
  let yoe := (doe - doe / 1460 + doe / 36524 - doe / 146096) / 365
  let y := yoe + era * 400
  let doy := doe - (365 * yoe + yoe / 4 - yoe / 100)
  let mp := (5 * doy + 2) / 153
  let d := doy - (153 * mp + 2) / 5 + 1
  let m := if mp < 10 then mp + 3 else mp - 9
  (if m ≤ 2 then y + 1 else y, m, d)

/-- `datetime.fromtimestamp(t, tz=timezone.utc).isoformat()` for a
whole-second epoch timestamp: `YYYY-MM-DDTHH:MM:SS+00:00`. -/
def epochToIso (t : Nat) : String :=
  let ymd := civilFromDays (t / 86400)
  let rem := t % 86400
  pad4 ymd.1 ++ "-" ++ pad2 ymd.2.1 ++ "-" ++ pad2 ymd.2.2 ++ "T"
    ++ pad2 (rem / 3600) ++ ":" ++ pad2 (rem % 3600 / 60) ++ ":" ++ pad2 (rem % 60)
    ++ "+00:00"

/-- `TherapyDataScraper.extract_qa_pair` (src/main.py lines 118-149).
The source also computes `categorize_content` on the combined text, but
the result is not used in the returned record (the `categories` field is
commented out). -/
def extract_qa_pair (post : RPost) (comment : RComment) : QARecord :=
  let question_text :=
    clean_text (if post.selftext ≠ "" then post.title ++ "\n\n" ++ post.selftext else post.title)
  let answer_text := clean_text comment.body
  { question_id := post.id ++ "_" ++ comment.id
    therapeutic_modality := get_therapeutic_modality question_text answer_text
    question_text := question_text
    answer_text := answer_text
    metadata :=
      { topic_or_issue := post.subreddit
        complexity_level := assess_complexity question_text answer_text
        modality_specific_tag := get_modality_specific_tag question_text answer_text }
    more :=
      { subreddit := post.subreddit
        source := "reddit"
        created_utc := epochToIso post.created_utc
        url := "https://reddit.com" ++ post.permalink } }

/-! ## Storage and the collection driver (src/main.py lines 178-249) -/

/-- The guarded MongoDB save of src/main.py lines 210-217: insert only
when no document with the same `question_id` exists; `fails` models
`insert_one` raising (the surrounding `try` catches it, leaving the
collection unchanged). -/
def mongo_insert (coll : List QARecord) (r : QARecord) (fails : Bool) : List QARecord :=
  if coll.countP (fun x => x.question_id == r.question_id) = 0 then
    if fails then coll else coll ++ [r]
  else coll

/-- The comment filter of src/main.py lines 202-205. -/
def comment_ok (post : RPost) (c : RComment) : Bool :=
  c.has_body && decide (3 < c.score) && decide (50 ≤ c.body.length)
    && is_valid_qa post.title post.selftext c.body

/-- The comment loop body of src/main.py lines 201-220: if the comment
passes the filter, append the extracted pair to `qa_pairs` and then
attempt the guarded insert.  State is `(qa_pairs, collection)`. -/
def process_comment (post : RPost) (st : List QARecord × List QARecord) (c : RComment) :
    List QARecord × List QARecord :=
  if comment_ok post c then
    let r := extract_qa_pair post c
    (st.1 ++ [r], mongo_insert st.2 r c.insert_fails)
  else st

/-- The post loop body of src/main.py lines 195-220: skip stickied posts
and posts without comments, otherwise run the comment loop. -/
def process_post (post : RPost) (st : List QARecord × List QARecord) :
    List QARecord × List QARecord :=
  if post.stickied = false ∧ 0 < post.num_comments then
    post.comments.foldl (process_comment post) st
  else st

/-- One listing fetch event: either a post yielded by the API iterator,
or an exception (`PrawcoreException` or any other) raised at this point
of the iteration. -/
inductive FetchItem where
  | post (p : RPost)
  | err
deriving DecidableEq, Repr

/-- The three listings of one subreddit, as the API would yield them
before the `limit=` cap is applied. -/
structure SubData where
  hot : List FetchItem
  top : List FetchItem
  new : List FetchItem
deriving DecidableEq, Repr

/-- Run the post loop over one listing; an error event aborts the
listing, keeping the state accumulated so far and reporting `true`. -/
def run_items : List FetchItem → List QARecord × List QARecord →
    (List QARecord × List QARecord) × Bool
  | [], st => (st, false)
  | FetchItem.err :: _, st => (st, true)
  | FetchItem.post p :: rest, st => run_items rest (process_post p st)

/-- `TherapyDataScraper.scrape_subreddit` (src/main.py lines 178-230)
with the caught exception made visible: the three listings (`hot`,
`top`, `new`, in the iteration order of the source's category list) are
processed with `limit = post_limit // 3` each; the first error aborts
the remaining listings.  Returns (`qa_pairs`, updated collection) and
whether an exception was raised (and caught). -/
def scrape_subreddit_run (d : SubData) (post_limit : Nat) (coll : List QARecord) :
    (List QARecord × List QARecord) × Bool :=
  let r1 := run_items (d.hot.take (post_limit / 3)) ([], coll)
  if r1.2 then (r1.1, true)
  else
    let r2 := run_items (d.top.take (post_limit / 3)) r1.1
    if r2.2 then (r2.1, true)
    else run_items (d.new.take (post_limit / 3)) r2.1

/-- `TherapyDataScraper.scrape_subreddit`: the `except` clauses swallow
the error, so the caller sees only the partial state. -/
def scrape_subreddit (d : SubData) (post_limit : Nat) (coll : List QARecord) :
    List QARecord × List QARecord :=
  (scrape_subreddit_run d post_limit coll).1

/-- The configured forum list (src/main.py lines 50-53). -/
def subreddits : List String :=
  ["therapy", "mentalhealth", "TalkTherapy", "psychotherapy",
   "CBT", "DBT", "askatherapist", "therapeuticquestions"]

/-- The forum loop of `scrape_all_subreddits` (src/main.py
lines 237-247): scrape each forum with the per-forum quota as post
limit, add its contribution to the running total, and stop once the
total reaches the target.  Returns the final total, the final
collection, and the log of `(forum, contribution)` for the forums that
were scraped. -/
def scrape_all_aux (env : String → SubData) (quota target : Nat) :
    List String → Nat → List QARecord → Nat × List QARecord × List (String × Nat)
  | [], total, coll => (total, coll, [])
  | name :: rest, total, coll =>
    let res := scrape_subreddit (env name) quota coll
    let total' := total + res.1.length
    if target ≤ total' then (total', res.2, [(name, res.1.length)])
    else
      let next := scrape_all_aux env quota target rest total' res.2
      (next.1, next.2.1, (name, res.1.length) :: next.2.2)

/-- `TherapyDataScraper.scrape_all_subreddits` (src/main.py
lines 232-249): `pairs_per_subreddit = target_count // len(subreddits)`
is passed to each forum scrape as its post limit. -/
def scrape_all_subreddits (env : String → SubData) (target : Nat) (coll : List QARecord) :
    Nat × List QARecord × List (String × Nat) :=
  scrape_all_aux env (target / subreddits.length) target subreddits 0 coll

/-- Sum of the per-forum contributions of a scrape log. -/
def contribSum (log : List (String × Nat)) : Nat :=
  (log.map Prod.snd).sum

/-! ## Concrete inputs used to evaluate the definitions -/

/-- A string of `n` single-character words. -/
def repWords (n : Nat) : String :=
  String.intercalate " " (List.replicate n "w")

/-- A record with a given `question_id` and fixed remaining fields. -/
def sampleRecord (qid : String) : QARecord :=
  { question_id := qid
    therapeutic_modality := "Unknown"
    question_text := "q"
    answer_text := "a"
    metadata :=
      { topic_or_issue := "therapy", complexity_level := "Low", modality_specific_tag := "None" }
    more :=
      { subreddit := "therapy", source := "reddit",
        created_utc := "1970-01-01T00:00:00+00:00", url := "https://reddit.com/x" } }

/-- A comment that passes every filter of the comment loop. -/
def cexComment : RComment :=
  { id := "c1", has_body := true,
    body := "Honestly you should talk to your therapist about it.",
    score := 10, insert_fails := false }

/-- A single non-stickied post carrying 626 valid comments. -/
def cexPost : RPost :=
  { id := "p1", title := "How can I handle panic attacks at night",
    selftext := "", permalink := "/r/therapy/comments/p1", created_utc := 1609459200,
    subreddit := "therapy", stickied := false, num_comments := 626, score := 50,
    comments := List.replicate 626 cexComment }

/-- A forum whose hot listing holds the single 626-comment post. -/
def cexData : SubData :=
  { hot := [FetchItem.post cexPost], top := [], new := [] }

/-- A valid comment whose storage insert raises. -/
def failComment : RComment :=
  { id := "c2", has_body := true,
    body := "Honestly you should talk to your therapist about it.",
    score := 7, insert_fails := true }

/-- A post with a duplicated comment and an insert-failing comment:
three reported pairs, one stored record. -/
def dupPost : RPost :=
  { id := "p2", title := "How can I handle panic attacks at night",
    selftext := "", permalink := "/r/therapy/comments/p2", created_utc := 1609459200,
    subreddit := "therapy", stickied := false, num_comments := 3, score := 9,
    comments := [cexComment, cexComment, failComment] }

/-- A forum whose hot listing holds the duplicate-and-failure post. -/
def dupData : SubData :=
  { hot := [FetchItem.post dupPost], top := [], new := [] }

/-- The environment in which every listing of every forum is empty. -/
def emptyEnv : String → SubData :=
  fun _ => { hot := [], top := [], new := [] }

end Volo

namespace Volo

/-- C3: the QA Validator's result is exactly the conjunction of the
length guard (`len(title) >= 20` and `len(comment_body) >= 50`), the
removal-marker guard on `selftext` and `comment_body`, and the
question-indicator guard on the lower-cased title; in particular a
19-character title is always rejected, and a 20-character title with no
question indicator is rejected. -/
theorem C3_validator_guards : ∀ t s b : String,
    is_valid_qa t s b = validator_spec t s b
    ∧ (t.length = 19 → is_valid_qa t s b = false)
    ∧ (t.length = 20 → (∀ ind ∈ question_indicators, pyIn ind (pyLower t) = false) →
        is_valid_qa t s b = false) := by
  intro t s b
  refine ⟨?_, ?_, ?_⟩
  · unfold is_valid_qa validator_spec
    by_cases h1 : t.length < 20 ∨ b.length < 50
    · rw [if_pos h1]
      rcases h1 with h | h
      · have e : decide (20 ≤ t.length) = false := decide_eq_false (by omega)
        simp [e]
      · have e : decide (50 ≤ b.length) = false := decide_eq_false (by omega)
        simp [e]
    · rw [if_neg h1]
      push_neg at h1
      have e1 : decide (20 ≤ t.length) = true := decide_eq_true (by omega)
      have e2 : decide (50 ≤ b.length) = true := decide_eq_true (by omega)
      by_cases h2 : pyIn "[removed]" s = true ∨ pyIn "[deleted]" s = true
      · rw [if_pos h2]
        rcases h2 with h | h <;> simp [h]
      · rw [if_neg h2]
        push_neg at h2
        obtain ⟨h2a, h2b⟩ := h2
        simp only [ne_eq, Bool.not_eq_true] at h2a h2b
        by_cases h3 : pyIn "[removed]" b = true ∨ pyIn "[deleted]" b = true
        · rw [if_pos h3]
          rcases h3 with h | h <;> simp [h, e1, e2, h2a, h2b]
        · rw [if_neg h3]
          push_neg at h3
          obtain ⟨h3a, h3b⟩ := h3
          simp only [ne_eq, Bool.not_eq_true] at h3a h3b
          simp [e1, e2, h2a, h2b, h3a, h3b]
  · intro h19
    unfold is_valid_qa
    rw [if_pos (Or.inl (by omega))]
  · intro _ hind
    unfold is_valid_qa
    by_cases h1 : t.length < 20 ∨ b.length < 50
    · rw [if_pos h1]
    · rw [if_neg h1]
      by_cases h2 : pyIn "[removed]" s = true ∨ pyIn "[deleted]" s = true
      · rw [if_pos h2]
      · rw [if_neg h2]
        by_cases h3 : pyIn "[removed]" b = true ∨ pyIn "[deleted]" b = true
        · rw [if_pos h3]
        · rw [if_neg h3]
          simp only [List.any_eq_false]
          intro ind hmem
          simp [hind ind hmem]

/-- Witness for C3: a 19-character title is rejected, and a
20-character title with no question indicator is rejected, at concrete
inputs. -/
theorem C3_validator_guards_witness :
    is_valid_qa "How is this working" "" "x" = false
    ∧ is_valid_qa "aaaaaaaaaaaaaaaaaaaa" "" "x" = false :=
  ⟨(C3_validator_guards "How is this working" "" "x").2.1 (by decide),
   (C3_validator_guards "aaaaaaaaaaaaaaaaaaaa" "" "x").2.2 (by decide) (by decide)⟩

/-- C4: the complexity tier is determined by word counts with exclusive
low-tier boundaries: "Low" iff the question has fewer than 30 words and
the answer fewer than 100; otherwise "Medium" iff fewer than 50 and 200;
otherwise "High"; a 29/99-word pair yields "Low" and a 30/100-word pair
yields "Medium". -/
theorem C4_complexity_tiers : ∀ q a : String,
    (assess_complexity q a = "Low" ↔ word_count q < 30 ∧ word_count a < 100)
    ∧ (assess_complexity q a = "Medium" ↔
        ¬(word_count q < 30 ∧ word_count a < 100)
          ∧ word_count q < 50 ∧ word_count a < 200)
    ∧ (assess_complexity q a = "High" ↔
        ¬(word_count q < 30 ∧ word_count a < 100)
          ∧ ¬(word_count q < 50 ∧ word_count a < 200))
    ∧ (word_count q = 29 → word_count a = 99 → assess_complexity q a = "Low")
    ∧ (word_count q = 30 → word_count a = 100 → assess_complexity q a = "Medium") := by
  intro q a
  unfold assess_complexity
  by_cases h1 : word_count q < 30 ∧ word_count a < 100
  · rw [if_pos h1]
    exact ⟨iff_of_true rfl h1,
      iff_of_false (by decide) (fun hc => hc.1 h1),
      iff_of_false (by decide) (fun hc => hc.1 h1),
      fun _ _ => rfl,
      fun hq ha => absurd h1 (by omega)⟩
  · rw [if_neg h1]
    by_cases h2 : word_count q < 50 ∧ word_count a < 200
    · rw [if_pos h2]
      exact ⟨iff_of_false (by decide) (fun hc => h1 hc),
        iff_of_true rfl ⟨h1, h2⟩,
        iff_of_false (by decide) (fun hc => hc.2 h2),
        fun hq ha => absurd (⟨by omega, by omega⟩ : _ ∧ _) h1,
        fun _ _ => rfl⟩
    · rw [if_neg h2]
      exact ⟨iff_of_false (by decide) (fun hc => h1 hc),
        iff_of_false (by decide) (fun hc => h2 hc.2),
        iff_of_true rfl ⟨h1, h2⟩,
        fun hq ha => absurd (⟨by omega, by omega⟩ : _ ∧ _) h1,
        fun hq ha => absurd (⟨by omega, by omega⟩ : _ ∧ _) h2⟩

set_option maxRecDepth 100000 in
/-- Witness for C4: a 29-word question with a 99-word answer is "Low",
and a 30-word question with a 100-word answer is "Medium". -/
theorem C4_complexity_tiers_witness :
    assess_complexity (repWords 29) (repWords 99) = "Low"
    ∧ assess_complexity (repWords 30) (repWords 100) = "Medium" :=
  ⟨(C4_complexity_tiers (repWords 29) (repWords 99)).2.2.2.1 (by decide) (by decide),
   (C4_complexity_tiers (repWords 30) (repWords 100)).2.2.2.2 (by decide) (by decide)⟩

/-- C5: modality tagging is first-match-wins with the CBT check before
the DBT check and an "Unknown" default; text containing "cbt" yields
"CBT" regardless of whether "dbt" is also present. -/
theorem C5_modality_priority : ∀ q a : String,
    ((pyIn "cbt" (pyLower q) || pyIn "cbt" (pyLower a)) = true →
        get_therapeutic_modality q a = "CBT")
    ∧ ((pyIn "cbt" (pyLower q) || pyIn "cbt" (pyLower a)) = false →
        (pyIn "dbt" (pyLower q) || pyIn "dbt" (pyLower a)) = true →
        get_therapeutic_modality q a = "DBT")
    ∧ ((pyIn "cbt" (pyLower q) || pyIn "cbt" (pyLower a)) = false →
        (pyIn "dbt" (pyLower q) || pyIn "dbt" (pyLower a)) = false →
        get_therapeutic_modality q a = "Unknown") := by
  intro q a
  refine ⟨fun h => ?_, fun h h2 => ?_, fun h h2 => ?_⟩
  · simp [get_therapeutic_modality, h]
  · simp [get_therapeutic_modality, h, h2]
  · simp [get_therapeutic_modality, h, h2]

/-- Witness for C5: a text containing both "cbt" and "dbt" is tagged
"CBT". -/
theorem C5_modality_priority_witness :
    get_therapeutic_modality "we did CBT and DBT work" "" = "CBT" :=
  (C5_modality_priority "we did CBT and DBT work" "").1 (by decide)

/-- C7: the Record Builder populates fixed-shape fields: `question_id`
is `"<post_id>_<comment_id>"`, `more.source` is `"reddit"`, `more.url`
is the permalink prefixed with the fixed domain, and `more.created_utc`
is the creation epoch time converted to UTC ISO-8601 (grounded at two
concrete timestamps). -/
theorem C7_record_builder : ∀ (post : RPost) (comment : RComment),
    (extract_qa_pair post comment).question_id = post.id ++ "_" ++ comment.id
    ∧ (extract_qa_pair post comment).more.source = "reddit"
    ∧ (extract_qa_pair post comment).more.url = "https://reddit.com" ++ post.permalink
    ∧ (extract_qa_pair post comment).more.created_utc = epochToIso post.created_utc
    ∧ epochToIso 0 = "1970-01-01T00:00:00+00:00"
    ∧ epochToIso 1609459200 = "2021-01-01T00:00:00+00:00" :=
  fun _ _ => ⟨rfl, rfl, rfl, rfl, by decide, by decide⟩

/-- C6: the Driver's guarded insert is idempotent on `question_id`:
inserting a record whose `question_id` already exists leaves the
collection unchanged (a no-op, not an error), inserting the same
`question_id` twice stores exactly one record, and distinctness of
`question_id`s in the collection is preserved. -/
theorem C6_insert_idempotent : ∀ (coll : List QARecord) (r r2 : QARecord),
    ((∃ x ∈ coll, x.question_id = r.question_id) → mongo_insert coll r false = coll)
    ∧ (r2.question_id = r.question_id →
        mongo_insert (mongo_insert coll r false) r2 false = mongo_insert coll r false
        ∧ (coll.countP (fun x => x.question_id == r.question_id) = 0 →
            (mongo_insert (mongo_insert coll r false) r2 false).countP
              (fun x => x.question_id == r.question_id) = 1))
    ∧ (List.Pairwise (fun x y => x.question_id ≠ y.question_id) coll →
        List.Pairwise (fun x y => x.question_id ≠ y.question_id)
          (mongo_insert coll r false)) := by
  intro coll r r2
  refine ⟨?_, ?_, ?_⟩
  · rintro ⟨x, hx, hid⟩
    have hne : coll.countP (fun y => y.question_id == r.question_id) ≠ 0 := by
      intro h0
      have := List.countP_eq_zero.mp h0 x hx
      simp [hid] at this
    simp [mongo_insert, hne]
  · intro hEq
    by_cases h0 : coll.countP (fun x => x.question_id == r.question_id) = 0
    · have hfirst : mongo_insert coll r false = coll ++ [r] := by
        simp [mongo_insert, h0]
      have hcount : (coll ++ [r]).countP (fun x => x.question_id == r.question_id) = 1 := by
        rw [List.countP_append, h0, List.countP_cons, List.countP_nil]
        simp
      have hcount2 : (coll ++ [r]).countP (fun x => x.question_id == r2.question_id) = 1 := by
        rw [hEq]
        exact hcount
      constructor
      · rw [hfirst]
        simp [mongo_insert, hcount2]
      · intro _
        rw [hfirst]
        rw [show mongo_insert (coll ++ [r]) r2 false = coll ++ [r] by
          simp [mongo_insert, hcount2]]
        exact hcount
    · have hfirst : mongo_insert coll r false = coll := by
        simp [mongo_insert, h0]
      constructor
      · rw [hfirst]
        have h02 : coll.countP (fun x => x.question_id == r2.question_id) ≠ 0 := by
          rw [hEq]
          exact h0
        simp [mongo_insert, h02]
      · intro h0'
        exact absurd h0' h0
  · intro hp
    by_cases h0 : coll.countP (fun x => x.question_id == r.question_id) = 0
    · rw [show mongo_insert coll r false = coll ++ [r] by simp [mongo_insert, h0]]
      rw [List.pairwise_append]
      refine ⟨hp, List.pairwise_singleton _ _, ?_⟩
      intro x hx y hy
      rw [List.mem_singleton] at hy
      subst hy
      have := List.countP_eq_zero.mp h0 x hx
      simpa using this
    · rw [show mongo_insert coll r false = coll by simp [mongo_insert, h0]]
      exact hp

/-- Witness for C6: inserting the same record twice into an empty
collection stores it once, and inserting a record whose id is present
is a no-op. -/
theorem C6_insert_idempotent_witness :
    mongo_insert (mongo_insert [] (sampleRecord "a") false) (sampleRecord "a") false
        = mongo_insert [] (sampleRecord "a") false
    ∧ (mongo_insert (mongo_insert [] (sampleRecord "a") false) (sampleRecord "a") false).countP
        (fun x => x.question_id == (sampleRecord "a").question_id) = 1
    ∧ mongo_insert [sampleRecord "a"] (sampleRecord "a") false = [sampleRecord "a"] :=
  ⟨((C6_insert_idempotent [] (sampleRecord "a") (sampleRecord "a")).2.1 rfl).1,
   ((C6_insert_idempotent [] (sampleRecord "a") (sampleRecord "a")).2.1 rfl).2 rfl,
   (C6_insert_idempotent [sampleRecord "a"] (sampleRecord "a") (sampleRecord "a")).1
     ⟨sampleRecord "a", by simp, rfl⟩⟩

theorem mem_pyStrip {c : Char} {l : List Char} (h : c ∈ pyStrip l) : c ∈ l := by
  unfold pyStrip at h
  rw [List.mem_reverse] at h
  have h1 := List.dropWhile_subset _ h
  rw [List.mem_reverse] at h1
  exact List.dropWhile_subset _ h1

theorem keepChar_of_mem_clean {c : Char} {x : String} (h : c ∈ (clean_text x).data) :
    keepChar c = true := by
  unfold clean_text at h
  by_cases hx : x = ""
  · rw [if_pos hx] at h
    simp at h
  · rw [if_neg hx] at h
    have h2 : c ∈ pyStrip (List.filter keepChar (collapseWs (removeLinks (removeUrls x.data)))) := h
    exact List.of_mem_filter (mem_pyStrip h2)

theorem schemeRest_colon {l r : List Char} (h : schemeRest l = some r) : ':' ∈ l := by
  unfold schemeRest at h
  split at h
  · exact List.mem_cons_self _ _
  · cases h

theorem matchUrlAt_none {l : List Char} (h : ':' ∉ l) : matchUrlAt l = none := by
  cases hm : matchUrlAt l with
  | none => rfl
  | some r =>
    exfalso
    unfold matchUrlAt at hm
    split at hm
    · exact h (by simp [schemeRest_colon hm])
    · exact h (by simp [schemeRest_colon hm])
    · cases hm

theorem removeUrlsAux_id : ∀ (fuel : Nat) (l : List Char), ':' ∉ l →
    removeUrlsAux fuel l = l := by
  intro fuel
  induction fuel with
  | zero =>
    intro l _
    cases l <;> rfl
  | succ n ih =>
    intro l h
    cases l with
    | nil => rfl
    | cons c cs =>
      rw [show removeUrlsAux (n + 1) (c :: cs)
            = (match matchUrlAt (c :: cs) with
               | some rest => removeUrlsAux n rest
               | none => c :: removeUrlsAux n cs) from rfl]
      rw [matchUrlAt_none h]
      exact congrArg (c :: ·) (ih cs (fun hm => h (List.mem_cons_of_mem _ hm)))

theorem removeUrls_id {l : List Char} (h : ':' ∉ l) : removeUrls l = l :=
  removeUrlsAux_id _ _ h

theorem removeLinksAux_id : ∀ (fuel : Nat) (l : List Char), '[' ∉ l →
    removeLinksAux fuel l = l := by
  intro fuel
  induction fuel with
  | zero =>
    intro l _
    cases l <;> rfl
  | succ n ih =>
    intro l h
    cases l with
    | nil => rfl
    | cons c cs =>
      have hc : ¬ c = '[' := by
        intro hcc
        apply h
        rw [← hcc]
        exact List.mem_cons_self c cs
      rw [show removeLinksAux (n + 1) (c :: cs)
            = (if c = '[' then
                 match (findLinkMid cs).bind findLinkEnd with
                 | some rest => removeLinksAux n rest
                 | none => c :: removeLinksAux n cs
               else c :: removeLinksAux n cs) from rfl]
      rw [if_neg hc]
      rw [ih cs (fun hm => h (List.mem_cons_of_mem _ hm))]

theorem removeLinks_id {l : List Char} (h : '[' ∉ l) : removeLinks l = l :=
  removeLinksAux_id _ _ h

theorem mem_collapseWsAux : ∀ (l : List Char) (b : Bool) (c : Char),
    c ∈ collapseWsAux b l → c = ' ' ∨ c ∈ l := by
  intro l
  induction l with
  | nil =>
    intro b c h
    simp [collapseWsAux] at h
  | cons a as ih =>
    intro b c h
    cases hs : pyIsSpace a with
    | true =>
      cases b with
      | true =>
        rw [show collapseWsAux true (a :: as) = collapseWsAux true as from by
          simp [collapseWsAux, hs]] at h
        rcases ih true c h with h2 | h2
        · exact Or.inl h2
        · exact Or.inr (List.mem_cons_of_mem _ h2)
      | false =>
        rw [show collapseWsAux false (a :: as) = ' ' :: collapseWsAux true as from by
          simp [collapseWsAux, hs]] at h
        rw [List.mem_cons] at h
        rcases h with h2 | h2
        · exact Or.inl h2
        · rcases ih true c h2 with h3 | h3
          · exact Or.inl h3
          · exact Or.inr (List.mem_cons_of_mem _ h3)
    | false =>
      rw [show collapseWsAux b (a :: as) = a :: collapseWsAux false as from by
        simp [collapseWsAux, hs]] at h
      rw [List.mem_cons] at h
      rcases h with h2 | h2
      · refine Or.inr ?_
        rw [h2]
        exact List.mem_cons_self a as
      · rcases ih false c h2 with h3 | h3
        · exact Or.inl h3
        · exact Or.inr (List.mem_cons_of_mem _ h3)

theorem clean_text_of_ne {s : String} (h : s ≠ "") :
    clean_text s = String.mk (pyStrip (List.filter keepChar
      (collapseWs (removeLinks (removeUrls s.data))))) := by
  unfold clean_text
  rw [if_neg h]

/-- C2 amended: `clean_text` is idempotent only up to whitespace
collapsing: a second application equals collapsing whitespace runs and
stripping again on the first output (the removal of non-whitelisted
characters can merge two whitespace runs after the collapse step has
already run, so full idempotence fails). -/
theorem C2_idempotent_up_to_collapse : ∀ x : String,
    clean_text (clean_text x) = collapse_strip (clean_text x) := by
  intro x
  by_cases hx : clean_text x = ""
  · rw [hx]
    rfl
  · have hkeep : ∀ c ∈ (clean_text x).data, keepChar c = true :=
      fun _ hc => keepChar_of_mem_clean hc
    have hcolon : ':' ∉ (clean_text x).data := by
      intro hm
      exact absurd (hkeep _ hm) (by decide)
    have hbracket : '[' ∉ (clean_text x).data := by
      intro hm
      exact absurd (hkeep _ hm) (by decide)
    rw [clean_text_of_ne hx]
    rw [removeUrls_id hcolon, removeLinks_id hbracket]
    rw [List.filter_eq_self.mpr (fun c hc => by
      rcases mem_collapseWsAux _ _ _ hc with h2 | h2
      · rw [h2]; decide
      · exact hkeep _ h2)]
    rfl

/-- Counterexample for C2: `clean_text` is not idempotent; on
`"a : b"` the first pass yields `"a  b"` (the removed colon leaves two
adjacent spaces) and the second pass yields `"a b"`. -/
theorem C2_counterexample : clean_text (clean_text "a : b") ≠ clean_text "a : b" := by
  decide

theorem urlScan_false : ∀ l : List Char, ':' ∉ l → urlScan l = false := by
  intro l
  induction l with
  | nil =>
    intro _
    rfl
  | cons c cs ih =>
    intro h
    unfold urlScan
    rw [matchUrlAt_none h]
    simp [ih (fun hm => h (List.mem_cons_of_mem _ hm))]

/-- C8: the output of `clean_text` contains no substring matching the
URL pattern `http[s]?://\S+` (every colon is outside the retained
character whitelist, so no match can survive). -/
theorem C8_no_url_in_output : ∀ x : String, hasUrlMatch (clean_text x) = false := by
  intro x
  show urlScan (clean_text x).data = false
  apply urlScan_false
  intro hm
  exact absurd (keepChar_of_mem_clean hm) (by decide)

theorem foldl_comment_len (post : RPost) : ∀ (cs : List RComment)
    (st : List QARecord × List QARecord),
    (cs.foldl (process_comment post) st).1.length
      = st.1.length + cs.countP (comment_ok post) := by
  intro cs
  induction cs with
  | nil =>
    intro st
    simp
  | cons c cs ih =>
    intro st
    rw [List.foldl_cons, ih, List.countP_cons]
    unfold process_comment
    cases h : comment_ok post c with
    | false => simp [h]
    | true =>
      simp [h]
      omega

theorem countP_replicate {α : Type} (p : α → Bool) (a : α) : ∀ n : Nat,
    (List.replicate n a).countP p = if p a then n else 0 := by
  intro n
  induction n with
  | zero => simp
  | succ m ih =>
    rw [List.replicate_succ, List.countP_cons, ih]
    cases h : p a <;> simp [h]

theorem scrape_all_aux_cons_stop (env : String → SubData) (quota target : Nat)
    (name : String) (rest : List String) (total : Nat) (coll : List QARecord)
    (h : target ≤ total + (scrape_subreddit (env name) quota coll).1.length) :
    scrape_all_aux env quota target (name :: rest) total coll
      = (total + (scrape_subreddit (env name) quota coll).1.length,
         (scrape_subreddit (env name) quota coll).2,
         [(name, (scrape_subreddit (env name) quota coll).1.length)]) := by
  simp only [scrape_all_aux]
  rw [if_pos h]

theorem scrape_all_aux_cons_go (env : String → SubData) (quota target : Nat)
    (name : String) (rest : List String) (total : Nat) (coll : List QARecord)
    (h : ¬ target ≤ total + (scrape_subreddit (env name) quota coll).1.length) :
    scrape_all_aux env quota target (name :: rest) total coll
      = ((scrape_all_aux env quota target rest
            (total + (scrape_subreddit (env name) quota coll).1.length)
            (scrape_subreddit (env name) quota coll).2).1,
         (scrape_all_aux env quota target rest
            (total + (scrape_subreddit (env name) quota coll).1.length)
            (scrape_subreddit (env name) quota coll).2).2.1,
         (name, (scrape_subreddit (env name) quota coll).1.length)
           :: (scrape_all_aux env quota target rest
                (total + (scrape_subreddit (env name) quota coll).1.length)
                (scrape_subreddit (env name) quota coll).2).2.2) := by
  simp only [scrape_all_aux]
  rw [if_neg h]

theorem scrape_all_aux_stop (env : String → SubData) (quota target : Nat) :
    ∀ (names : List String) (total : Nat) (coll : List QARecord) (i : Nat),
      i + 1 < (scrape_all_aux env quota target names total coll).2.2.length →
      total + contribSum ((scrape_all_aux env quota target names total coll).2.2.take (i + 1))
        < target := by
  intro names
  induction names with
  | nil =>
    intro total coll i h
    simp [scrape_all_aux] at h
  | cons name rest ih =>
    intro total coll i h
    by_cases htgt : target ≤ total + (scrape_subreddit (env name) quota coll).1.length
    · rw [scrape_all_aux_cons_stop env quota target name rest total coll htgt] at h
      simp at h
    · rw [scrape_all_aux_cons_go env quota target name rest total coll htgt] at h ⊢
      dsimp only at h ⊢
      cases i with
      | zero =>
        simp only [List.take_succ_cons, List.take_zero, contribSum, List.map_cons,
          List.map_nil, List.sum_cons, List.sum_nil]
        omega
      | succ j =>
        simp only [List.length_cons] at h
        have h2 := ih (total + (scrape_subreddit (env name) quota coll).1.length)
          ((scrape_subreddit (env name) quota coll).2) j (by omega)
        simp only [List.take_succ_cons, contribSum, List.map_cons, List.sum_cons] at h2 ⊢
        omega

/-- C1 amended: no forum is scraped after the running total has reached
`target_count`: whenever the scrape log has a forum after position `i`,
the contributions accumulated through position `i` are still below the
target.  (The per-forum-quota half of the original claim is refuted by
`C1_quota_counterexample`: the quota is passed to the forum scrape as a
post limit, not a record bound.) -/
theorem C1_target_stop : ∀ (env : String → SubData) (target : Nat) (coll : List QARecord)
    (i : Nat),
    i + 1 < (scrape_all_subreddits env target coll).2.2.length →
    contribSum ((scrape_all_subreddits env target coll).2.2.take (i + 1)) < target := by
  intro env target coll i h
  rw [show scrape_all_subreddits env target coll
        = scrape_all_aux env (target / subreddits.length) target subreddits 0 coll
      from rfl] at h ⊢
  have h2 := scrape_all_aux_stop env (target / subreddits.length) target subreddits 0 coll i h
  omega

/-- Witness for the amended C1: in the environment of empty forums all
eight forums are scraped and every proper prefix of the log is below the
target. -/
theorem C1_target_stop_witness :
    contribSum ((scrape_all_subreddits emptyEnv 5000 []).2.2.take 1) < 5000 :=
  C1_target_stop emptyEnv 5000 [] 0 (by decide)

set_option maxRecDepth 100000 in
/-- Counterexample for C1 as stated: with the configured target 5000 and
8 forums the per-forum quota is 625, yet a single forum whose hot
listing has one post with 626 valid comments contributes 626 records —
the quota `target_count // len(subreddits)` is a post limit, not a bound
on records per forum. -/
theorem C1_quota_counterexample :
    5000 / subreddits.length <
      ((scrape_subreddit cexData (5000 / subreddits.length) []).1).length := by
  show 625 < ((scrape_subreddit cexData 625 []).1).length
  rw [show scrape_subreddit cexData 625 []
        = List.foldl (process_comment cexPost) ([], ([] : List QARecord))
            (List.replicate 626 cexComment) from rfl]
  rw [foldl_comment_len]
  rw [countP_replicate]
  rw [if_pos (show comment_ok cexPost cexComment = true from by decide)]
  decide

theorem run_items_append_err : ∀ (pre junk : List FetchItem)
    (st : List QARecord × List QARecord),
    (∀ x ∈ pre, x ≠ FetchItem.err) →
    run_items (pre ++ FetchItem.err :: junk) st = ((run_items pre st).1, true) := by
  intro pre
  induction pre with
  | nil =>
    intro junk st _
    rfl
  | cons x xs ih =>
    intro junk st h
    cases x with
    | err => exact absurd rfl (h _ (List.mem_cons_self _ _))
    | post p =>
      show run_items (xs ++ FetchItem.err :: junk) (process_post p st) = _
      rw [ih junk (process_post p st) (fun y hy => h y (List.mem_cons_of_mem _ hy))]
      rfl

theorem take_append_cons {α : Type} (pre : List α) (a : α) (junk : List α) (n : Nat)
    (h : pre.length < n) :
    (pre ++ a :: junk).take n = pre ++ a :: junk.take (n - pre.length - 1) := by
  rw [List.take_append_eq_append_take]
  rw [List.take_of_length_le (Nat.le_of_lt h)]
  congr 1
  obtain ⟨m, hm⟩ : ∃ m, n - pre.length = m + 1 := ⟨n - pre.length - 1, by omega⟩
  have h2 : n - pre.length - 1 = m := by omega
  rw [h2, hm, List.take_succ_cons]

/-- C9: a forum-level failure is terminal only for that forum's scope:
an error raised while iterating a forum's listing makes
`scrape_subreddit` return exactly the records collected before the
failure (the error is caught, not propagated), and the driver loop
proceeds to the next forum whenever the target is not yet reached —
independently of whether the just-scraped forum failed. -/
theorem C9_error_scoped :
    (∀ (pre junk t n : List FetchItem) (limit : Nat) (coll : List QARecord),
        (∀ x ∈ pre, x ≠ FetchItem.err) → pre.length < limit / 3 →
        scrape_subreddit ⟨pre ++ FetchItem.err :: junk, t, n⟩ limit coll
            = (run_items pre ([], coll)).1
          ∧ (scrape_subreddit_run ⟨pre ++ FetchItem.err :: junk, t, n⟩ limit coll).2 = true)
    ∧ (∀ (env : String → SubData) (quota target : Nat) (name : String) (rest : List String)
        (total : Nat) (coll : List QARecord),
        total + (scrape_subreddit (env name) quota coll).1.length < target →
        scrape_all_aux env quota target (name :: rest) total coll
          = ((scrape_all_aux env quota target rest
                (total + (scrape_subreddit (env name) quota coll).1.length)
                (scrape_subreddit (env name) quota coll).2).1,
             (scrape_all_aux env quota target rest
                (total + (scrape_subreddit (env name) quota coll).1.length)
                (scrape_subreddit (env name) quota coll).2).2.1,
             (name, (scrape_subreddit (env name) quota coll).1.length)
               :: (scrape_all_aux env quota target rest
                    (total + (scrape_subreddit (env name) quota coll).1.length)
                    (scrape_subreddit (env name) quota coll).2).2.2)) := by
  constructor
  · intro pre junk t n limit coll herr hlen
    have hmain : scrape_subreddit_run ⟨pre ++ FetchItem.err :: junk, t, n⟩ limit coll
        = ((run_items pre ([], coll)).1, true) := by
      unfold scrape_subreddit_run
      rw [show (⟨pre ++ FetchItem.err :: junk, t, n⟩ : SubData).hot
            = pre ++ FetchItem.err :: junk from rfl]
      rw [take_append_cons pre FetchItem.err junk (limit / 3) hlen]
      rw [run_items_append_err pre (junk.take (limit / 3 - pre.length - 1)) ([], coll) herr]
      simp
    constructor
    · show (scrape_subreddit_run ⟨pre ++ FetchItem.err :: junk, t, n⟩ limit coll).1 = _
      rw [hmain]
    · rw [hmain]
  · intro env quota target name rest total coll hlt
    exact scrape_all_aux_cons_go env quota target name rest total coll (by omega)

/-- Witness for C9: an immediately-failing forum yields the empty
partial result with the error flag caught, and the driver loop with one
forum left proceeds into the recursive call. -/
theorem C9_error_scoped_witness :
    scrape_subreddit ⟨[FetchItem.err], [], []⟩ 3 [] = ([], [])
    ∧ (scrape_subreddit_run ⟨[FetchItem.err], [], []⟩ 3 []).2 = true
    ∧ scrape_all_aux emptyEnv 0 5 ["therapy"] 0 [] = (0, [], [("therapy", 0)]) :=
  ⟨(C9_error_scoped.1 [] [] [] [] 3 [] (by simp) (by decide)).1,
   (C9_error_scoped.1 [] [] [] [] 3 [] (by simp) (by decide)).2,
   C9_error_scoped.2 emptyEnv 0 5 "therapy" [] 0 [] (by decide)⟩

theorem mongo_insert_len (coll : List QARecord) (r : QARecord) (fails : Bool) :
    (mongo_insert coll r fails).length ≤ coll.length + 1 := by
  unfold mongo_insert
  split_ifs <;> simp

theorem process_comment_delta (post : RPost) (st : List QARecord × List QARecord)
    (c : RComment) :
    (process_comment post st c).2.length + st.1.length
      ≤ st.2.length + (process_comment post st c).1.length := by
  unfold process_comment
  cases h : comment_ok post c with
  | true =>
    have h2 := mongo_insert_len st.2 (extract_qa_pair post c) c.insert_fails
    simp [h]
    omega
  | false => simp [h]

theorem foldl_comment_delta (post : RPost) : ∀ (cs : List RComment)
    (st : List QARecord × List QARecord),
    (cs.foldl (process_comment post) st).2.length + st.1.length
      ≤ st.2.length + (cs.foldl (process_comment post) st).1.length := by
  intro cs
  induction cs with
  | nil =>
    intro st
    simp
  | cons c cs ih =>
    intro st
    rw [List.foldl_cons]
    have h1 := process_comment_delta post st c
    have h2 := ih (process_comment post st c)
    omega

theorem process_post_delta (p : RPost) (st : List QARecord × List QARecord) :
    (process_post p st).2.length + st.1.length
      ≤ st.2.length + (process_post p st).1.length := by
  unfold process_post
  split_ifs with h
  · exact foldl_comment_delta p p.comments st
  · omega

theorem run_items_delta : ∀ (items : List FetchItem) (st : List QARecord × List QARecord),
    (run_items items st).1.2.length + st.1.length
      ≤ st.2.length + (run_items items st).1.1.length := by
  intro items
  induction items with
  | nil =>
    intro st
    simp [run_items]
  | cons x rest ih =>
    intro st
    cases x with
    | err => simp [run_items]
    | post p =>
      rw [show run_items (FetchItem.post p :: rest) st
            = run_items rest (process_post p st) from rfl]
      have h1 := process_post_delta p st
      have h2 := ih (process_post p st)
      omega

theorem scrape_run_br1 (d : SubData) (limit : Nat) (coll : List QARecord)
    (h : (run_items (d.hot.take (limit / 3)) (([] : List QARecord), coll)).2 = true) :
    scrape_subreddit_run d limit coll
      = ((run_items (d.hot.take (limit / 3)) (([] : List QARecord), coll)).1, true) := by
  unfold scrape_subreddit_run
  simp [h]

theorem scrape_run_br2 (d : SubData) (limit : Nat) (coll : List QARecord)
    (h1 : (run_items (d.hot.take (limit / 3)) (([] : List QARecord), coll)).2 = false)
    (h2 : (run_items (d.top.take (limit / 3))
        ((run_items (d.hot.take (limit / 3)) (([] : List QARecord), coll)).1)).2 = true) :
    scrape_subreddit_run d limit coll
      = ((run_items (d.top.take (limit / 3))
          ((run_items (d.hot.take (limit / 3)) (([] : List QARecord), coll)).1)).1, true) := by
  unfold scrape_subreddit_run
  simp [h1, h2]

theorem scrape_run_br3 (d : SubData) (limit : Nat) (coll : List QARecord)
    (h1 : (run_items (d.hot.take (limit / 3)) (([] : List QARecord), coll)).2 = false)
    (h2 : (run_items (d.top.take (limit / 3))
        ((run_items (d.hot.take (limit / 3)) (([] : List QARecord), coll)).1)).2 = false) :
    scrape_subreddit_run d limit coll
      = run_items (d.new.take (limit / 3))
          ((run_items (d.top.take (limit / 3))
            ((run_items (d.hot.take (limit / 3)) (([] : List QARecord), coll)).1)).1) := by
  unfold scrape_subreddit_run
  simp [h1, h2]

theorem scrape_subreddit_delta (d : SubData) (limit : Nat) (coll : List QARecord) :
    (scrape_subreddit d limit coll).2.length
      ≤ coll.length + (scrape_subreddit d limit coll).1.length := by
  rw [show scrape_subreddit d limit coll = (scrape_subreddit_run d limit coll).1 from rfl]
  have h1 := run_items_delta (d.hot.take (limit / 3)) (([] : List QARecord), coll)
  simp only [List.length_nil] at h1
  cases e1 : (run_items (d.hot.take (limit / 3)) (([] : List QARecord), coll)).2 with
  | true =>
    rw [scrape_run_br1 d limit coll e1]
    dsimp only
    omega
  | false =>
    have h2 := run_items_delta (d.top.take (limit / 3))
      ((run_items (d.hot.take (limit / 3)) (([] : List QARecord), coll)).1)
    cases e2 : (run_items (d.top.take (limit / 3))
        ((run_items (d.hot.take (limit / 3)) (([] : List QARecord), coll)).1)).2 with
    | true =>
      rw [scrape_run_br2 d limit coll e1 e2]
      dsimp only
      omega
    | false =>
      have h3 := run_items_delta (d.new.take (limit / 3))
        ((run_items (d.top.take (limit / 3))
          ((run_items (d.hot.take (limit / 3)) (([] : List QARecord), coll)).1)).1)
      rw [scrape_run_br3 d limit coll e1 e2]
      omega

theorem scrape_all_aux_delta (env : String → SubData) (quota target : Nat) :
    ∀ (names : List String) (total : Nat) (coll : List QARecord),
    (scrape_all_aux env quota target names total coll).2.1.length + total
      ≤ coll.length + (scrape_all_aux env quota target names total coll).1 := by
  intro names
  induction names with
  | nil =>
    intro total coll
    simp [scrape_all_aux]
  | cons name rest ih =>
    intro total coll
    have hs := scrape_subreddit_delta (env name) quota coll
    by_cases htgt : target ≤ total + (scrape_subreddit (env name) quota coll).1.length
    · rw [scrape_all_aux_cons_stop env quota target name rest total coll htgt]
      dsimp only
      omega
    · rw [scrape_all_aux_cons_go env quota target name rest total coll htgt]
      dsimp only
      have h2 := ih (total + (scrape_subreddit (env name) quota coll).1.length)
        ((scrape_subreddit (env name) quota coll).2)
      omega

/-- C10: every valid pair is appended to the forum's returned list
before the storage insert is attempted, so the reported collected count
bounds the number of records actually stored: over any run the
collection grows by at most the reported total, and the growth can be
strictly smaller — a post with a duplicated comment and an
insert-failing comment reports 3 collected pairs while storing 1
record. -/
theorem C10_reported_ge_stored :
    (∀ (env : String → SubData) (target : Nat) (coll : List QARecord),
        (scrape_all_subreddits env target coll).2.1.length
          ≤ coll.length + (scrape_all_subreddits env target coll).1)
    ∧ (scrape_subreddit dupData 625 []).1.length = 3
    ∧ (scrape_subreddit dupData 625 []).2.length = 1 := by
  refine ⟨?_, by decide, by decide⟩
  intro env target coll
  rw [show scrape_all_subreddits env target coll
        = scrape_all_aux env (target / subreddits.length) target subreddits 0 coll
      from rfl]
  have h := scrape_all_aux_delta env (target / subreddits.length) target subreddits 0 coll
  omega

end Volo

